import Mathlib

/-!
Shallow embedding of the Lead Scoring Service of the AI-Powered CRM
(backend `LeadScoringService` in `app.js`).

Modelling conventions:
- JavaScript numbers are modelled as exact rationals (`ℚ`) for weighted
  sums and as `Int` for the additive sub-scores (which only ever hold
  integers in the source).  `Math.round` is round-half-up
  (`⌊q + 1/2⌋`), matching JS semantics on the values arising here.
- Absent JS object fields are `Option.none`; JS string truthiness
  (`undefined` and `""` are falsy) is modelled explicitly where the
  source branches on it.
- Dates are day counts (`Int`); the 30-day recency window of engagement
  scoring compares day counts.
- The outcome of an HTTP call to the external ML service is a parameter
  of type `Except Unit _`: `.error` is any network failure / timeout /
  non-2xx response (the `catch` branch of the source), `.ok` a parsed
  response body.  All functions are total, which models the fact that
  the source paths under study never throw past their boundary.
-/

namespace CRM

/-- Test whether `pat` is an initial segment of `l`. -/
def occursAtFront : List Char → List Char → Bool
  | [], _ => true
  | _ :: _, [] => false
  | a :: as, b :: bs => a == b && occursAtFront as bs

/-- Test whether `pat` occurs as a contiguous segment of `l`. -/
def occursIn (pat : List Char) : List Char → Bool
  | [] => occursAtFront pat []
  | c :: rest => occursAtFront pat (c :: rest) || occursIn pat rest

/-- JS `String.prototype.includes`: contiguous substring test. -/
def strContains (s pat : String) : Bool :=
  occursIn pat.data s.data

/-- JS `String.prototype.toLowerCase` on the ASCII titles at issue:
lower each character. -/
def lowerStr (s : String) : String :=
  ⟨s.data.map Char.toLower⟩

/-- JS string truthiness of an optional field: `undefined` and `""` are
falsy. -/
def isTruthyStr : Option String → Bool
  | none => false
  | some s => !(s == "")

/-- One entry of `lead.interactions`.  `date` is a day count. -/
structure Interaction where
  itype : Option String
  date : Int
  outcome : Option String
  notes : Option String
deriving DecidableEq

/-- The nested `lead.company` object. -/
structure Company where
  name : Option String
  industry : Option String
  size : Option String
  revenue : Option String
deriving DecidableEq

/-- A lead record as consumed by the scoring service: identity plus
optional qualification fields. -/
structure LeadRecord where
  leadId : String
  jobTitle : Option String
  decisionMaker : Bool
  company : Option Company
  source : Option String
  status : Option String
  priority : Option String
  budget : Option String
  timeline : Option String
  interactions : Option (List Interaction)
  createdAt : Option Int
deriving DecidableEq

/-- One factor of a score breakdown. -/
structure ScoreFactor where
  name : String
  weight : ℚ
  score : ℚ
  details : Option String
deriving DecidableEq

/-- The result object of a scoring call.  Fields that a code path does
not set are `none`. -/
structure ScoreResult where
  value : Int
  factors : List ScoreFactor
  method : Option String
  model_version : Option String := none
  confidence : Option ℚ := none
deriving DecidableEq

/-- ML endpoint configuration read from the environment in the service
constructor. -/
structure ServiceConfig where
  mlServiceUrl : Option String
  mlApiKey : Option String
deriving DecidableEq

/-- The guard `if (this.mlServiceUrl && this.mlApiKey)`. -/
def mlConfigured (cfg : ServiceConfig) : Bool :=
  isTruthyStr cfg.mlServiceUrl && isTruthyStr cfg.mlApiKey

/-- The fixed `defaultWeights.demographic` of the constructor. -/
def demographicWeight : ℚ := 25 / 100

/-- The fixed `defaultWeights.behavioral` of the constructor. -/
def behavioralWeight : ℚ := 30 / 100

/-- The fixed `defaultWeights.firmographic` of the constructor. -/
def firmographicWeight : ℚ := 25 / 100

/-- The fixed `defaultWeights.engagement` of the constructor. -/
def engagementWeight : ℚ := 20 / 100

/-- JS `Math.round`: round half toward positive infinity. -/
def jsRound (q : ℚ) : Int := ⌊q + 1 / 2⌋

/-- `Math.max(0, Math.min(100, x))` on integers. -/
def clampInt (x : Int) : Int := max 0 (min 100 x)

/-- `Math.max(0, Math.min(100, x))` on rationals. -/
def clampQ (x : ℚ) : ℚ := max 0 (min 100 x)

/-- The CEO tier test of `scoreDemographics`:
`title.includes('ceo') || title.includes('founder') || title.includes('president')`. -/
def ceoTier (t : String) : Bool :=
  strContains t "ceo" || strContains t "founder" || strContains t "president"

/-- The director tier test of `scoreDemographics`:
`title.includes('director') || title.includes('manager') || title.includes('head')`. -/
def dirTier (t : String) : Bool :=
  strContains t "director" || strContains t "manager" || strContains t "head"

/-- The VP tier test of `scoreDemographics`:
`title.includes('vp') || title.includes('vice president')`. -/
def vpTier (t : String) : Bool :=
  strContains t "vp" || strContains t "vice president"

/-- The job-title bonus of `scoreDemographics`, exactly in the source's
branch order: CEO tier, then director tier, then VP tier. -/
def jobTitleBonus (title : String) : Int :=
  let t := lowerStr title
  if ceoTier t then 20
  else if dirTier t then 15
  else if vpTier t then 18
  else 0

/-- `scoreDemographics(lead)`: base 50, job-title bonus (only when the
title is truthy), +15 for a decision maker, company-size bonus, clamped
to [0,100]. -/
def scoreDemographics (lead : LeadRecord) : Int :=
  let jobPart : Int :=
    match lead.jobTitle with
    | some t => if t == "" then 0 else jobTitleBonus t
    | none => 0
  let dmPart : Int := if lead.decisionMaker then 15 else 0
  let sizePart : Int :=
    match lead.company with
    | some c =>
      match c.size with
      | some "1000+" => 15
      | some "201-1000" => 12
      | some "51-200" => 8
      | some "11-50" => 5
      | _ => 0
    | none => 0
  clampInt (50 + jobPart + dmPart + sizePart)

/-- `scoreBehavior(lead)`: base 50 with source, timeline and budget
switches (each with a default branch also taken by an absent field),
clamped to [0,100]. -/
def scoreBehavior (lead : LeadRecord) : Int :=
  let sourcePart : Int :=
    match lead.source with
    | some "Referral" => 20
    | some "Website" => 15
    | some "Social Media" => 10
    | some "Email Campaign" => 8
    | some "Cold Call" => -5
    | _ => 5
  let timelinePart : Int :=
    match lead.timeline with
    | some "Immediate" => 25
    | some "1-3 months" => 20
    | some "3-6 months" => 10
    | some "6-12 months" => 5
    | _ => -5
  let budgetPart : Int :=
    match lead.budget with
    | some "$500K+" => 25
    | some "$100K-$500K" => 20
    | some "$50K-$100K" => 15
    | some "$10K-$50K" => 10
    | some "<$10K" => 5
    | _ => -5
  clampInt (50 + sourcePart + timelinePart + budgetPart)

/-- `scoreFirmographics(lead)`: base 50 with industry switch (guarded by
truthiness of `lead.company?.industry`), revenue switch, +5 for a
non-empty company name, clamped to [0,100]. -/
def scoreFirmographics (lead : LeadRecord) : Int :=
  let industryPart : Int :=
    match lead.company with
    | some c =>
      match c.industry with
      | some s =>
        if s == "" then 0
        else if s == "Technology" then 15
        else if s == "Healthcare" then 12
        else if s == "Finance" then 12
        else if s == "Education" then 8
        else if s == "Manufacturing" then 8
        else 5
      | none => 0
    | none => 0
  let revenuePart : Int :=
    match lead.company with
    | some c =>
      match c.revenue with
      | some "$200M+" => 20
      | some "$50M-$200M" => 15
      | some "$10M-$50M" => 10
      | some "$1M-$10M" => 5
      | _ => 0
    | none => 0
  let namePart : Int :=
    match lead.company with
    | some c =>
      match c.name with
      | some s => if s.length > 0 then 5 else 0
      | none => 0
    | none => 0
  clampInt (50 + industryPart + revenuePart + namePart)

/-- `scoreEngagement(lead)` at evaluation day `now`: base 50; when the
interaction list is present and non-empty, up to +20 at 3 points per
interaction, +5 per positive outcome, +3 per interaction within the
last 30 days; priority switch without default; clamped to [0,100]. -/
def scoreEngagement (lead : LeadRecord) (now : Int) : Int :=
  let interactionPart : Int :=
    match lead.interactions with
    | some l =>
      if l.length > 0 then
        let count : Int := l.length
        let pos : Int := (l.filter (fun i => i.outcome == some "Positive")).length
        let recent : Int := (l.filter (fun i => decide (now - 30 ≤ i.date))).length
        min 20 (count * 3) + pos * 5 + recent * 3
      else 0
    | none => 0
  let priorityPart : Int :=
    match lead.priority with
    | some "Critical" => 15
    | some "High" => 10
    | some "Medium" => 0
    | some "Low" => -5
    | _ => 0
  clampInt (50 + interactionPart + priorityPart)

/-- `calculateScoreWithRules(lead)` at evaluation day `now`: the four
weighted sub-scores, their factor list in emission order, and the
clamped, rounded weighted total with `method: 'rule-based'`. -/
def calculateScoreWithRules (lead : LeadRecord) (now : Int) : ScoreResult :=
  let d := scoreDemographics lead
  let b := scoreBehavior lead
  let f := scoreFirmographics lead
  let e := scoreEngagement lead now
  let total : ℚ :=
    (d : ℚ) * demographicWeight + (b : ℚ) * behavioralWeight
      + (f : ℚ) * firmographicWeight + (e : ℚ) * engagementWeight
  { value := jsRound (clampQ total)
    factors :=
      [ { name := "demographic", weight := demographicWeight, score := (d : ℚ)
          details := some "Based on job title, company size, and industry" }
      , { name := "behavioral", weight := behavioralWeight, score := (b : ℚ)
          details := some "Based on lead source, timeline, and budget" }
      , { name := "firmographic", weight := firmographicWeight, score := (f : ℚ)
          details := some "Based on company information and industry" }
      , { name := "engagement", weight := engagementWeight, score := (e : ℚ)
          details := some "Based on interactions and response rates" } ]
    method := some "rule-based" }

/-- A parsed response body of the single-lead ML endpoint. -/
structure MLResponse where
  score : Option ℚ
  factors : Option (List ScoreFactor)
  model_version : Option String
  confidence : Option ℚ
deriving DecidableEq

/-- `calculateScoreWithML(lead)` given the outcome `resp` of the HTTP
call: on a response carrying a numeric `score`, round it (without
clamping) and pass `factors` (or `[]`), `model_version` and
`confidence` through — no `method` field is set on this path; on a
missing score or a failed call, fall back to the rule-based scorer. -/
def calculateScoreWithML (lead : LeadRecord) (resp : Except Unit MLResponse)
    (now : Int) : ScoreResult :=
  match resp with
  | Except.error _ => calculateScoreWithRules lead now
  | Except.ok d =>
    match d.score with
    | some s =>
      { value := jsRound s
        factors := d.factors.getD []
        method := none
        model_version := d.model_version
        confidence := d.confidence }
    | none => calculateScoreWithRules lead now

/-- `calculateLeadScore(lead)`: ML path when both `mlServiceUrl` and
`mlApiKey` are configured, rule-based path otherwise.  The outer catch
of the source is unreachable here because the rule-based scorer is
total. -/
def calculateLeadScore (cfg : ServiceConfig) (lead : LeadRecord)
    (resp : Except Unit MLResponse) (now : Int) : ScoreResult :=
  if mlConfigured cfg then calculateScoreWithML lead resp now
  else calculateScoreWithRules lead now

/-- The score the ML response supplies to `calculateLeadScore`, when the
ML path is taken and the response carries a score. -/
def mlSuppliedScore (cfg : ServiceConfig) (resp : Except Unit MLResponse) :
    Option ℚ :=
  if mlConfigured cfg then
    match resp with
    | Except.ok d => d.score
    | Except.error _ => none
  else none

/-- One entry of a batch scoring result: `{ leadId: lead._id, ...score }`. -/
structure BatchEntry where
  leadId : String
  result : ScoreResult
deriving DecidableEq

/-- `batchCalculateWithML(leads)` given the outcome `resp` of the batch
HTTP call: on success the response's `results` array is returned; on
failure the source logs a fallback warning but rethrows the error. -/
def batchCalculateWithML (resp : Except Unit (List BatchEntry)) :
    Except Unit (List BatchEntry) :=
  match resp with
  | Except.ok rs => Except.ok rs
  | Except.error e => Except.error e

/-- `batchCalculateScores(leads)`: when the ML endpoint is configured the
batch ML call is made and its error, if any, is rethrown by the outer
catch; otherwise each lead is scored rule-based individually, in input
order, with `leadId` attached. -/
def batchCalculateScores (cfg : ServiceConfig) (leads : List LeadRecord)
    (resp : Except Unit (List BatchEntry)) (now : Int) :
    Except Unit (List BatchEntry) :=
  if mlConfigured cfg then batchCalculateWithML resp
  else Except.ok (leads.map fun l => ⟨l.leadId, calculateScoreWithRules l now⟩)

/-- `getScoreGrade(score)`. -/
def getScoreGrade (score : Int) : String :=
  if score ≥ 90 then "A+"
  else if score ≥ 80 then "A"
  else if score ≥ 70 then "B"
  else if score ≥ 60 then "C"
  else if score ≥ 50 then "D"
  else "F"

/-- A recommendation object `{type, message, action}`. -/
structure Recommendation where
  rtype : String
  message : String
  action : String
deriving DecidableEq

/-- The fixed priority-contact recommendation. -/
def recPriority : Recommendation :=
  ⟨"priority", "High-value lead - prioritize immediate contact",
    "Schedule demo or meeting within 24 hours"⟩

/-- The fixed identify-decision-maker recommendation. -/
def recDecisionMaker : Recommendation :=
  ⟨"qualification", "Identify decision maker",
    "Ask about decision-making process and key stakeholders"⟩

/-- The fixed clarify-timeline recommendation. -/
def recTimeline : Recommendation :=
  ⟨"qualification", "Clarify timeline",
    "Discover when they plan to make a decision"⟩

/-- The fixed understand-budget recommendation. -/
def recBudget : Recommendation :=
  ⟨"qualification", "Understand budget range",
    "Discuss budget parameters and expectations"⟩

/-- The fixed initiate-first-contact recommendation. -/
def recEngagement : Recommendation :=
  ⟨"engagement", "No interactions recorded",
    "Initiate first contact and log interaction"⟩

/-- The test `!lead.timeline || lead.timeline === 'Unknown'` (an absent
or empty or literally unknown optional string). -/
def unsetOrUnknown : Option String → Bool
  | none => true
  | some s => s == "" || s == "Unknown"

/-- `generateRecommendations(lead, score)`: the five rules in source
order; note the last guard is `lead.interactions?.length === 0`, which
holds only when the interaction list is present and empty. -/
def generateRecommendations (lead : LeadRecord) (score : ScoreResult) :
    List Recommendation :=
  (if score.value ≥ 80 then [recPriority] else [])
    ++ (if !lead.decisionMaker then [recDecisionMaker] else [])
    ++ (if unsetOrUnknown lead.timeline then [recTimeline] else [])
    ++ (if unsetOrUnknown lead.budget then [recBudget] else [])
    ++ (if lead.interactions == some [] then [recEngagement] else [])

/-- The insights object of `getScoreInsights(lead)`. -/
structure Insights where
  score : Int
  grade : String
  factors : List ScoreFactor
  recommendations : List Recommendation
deriving DecidableEq

/-- `getScoreInsights(lead)`: score via the façade, letter grade, and
recommendations. -/
def getScoreInsights (cfg : ServiceConfig) (lead : LeadRecord)
    (resp : Except Unit MLResponse) (now : Int) : Insights :=
  let s := calculateLeadScore cfg lead resp now
  ⟨s.value, getScoreGrade s.value, s.factors, generateRecommendations lead s⟩

/-- A lead with only identity fields set: every optional field absent. -/
def emptyLead : LeadRecord :=
  { leadId := "lead-0", jobTitle := none, decisionMaker := false
    company := none, source := none, status := none, priority := none
    budget := none, timeline := none, interactions := none, createdAt := none }

/-- A configuration with the ML endpoint and credential both set. -/
def cfgML : ServiceConfig :=
  { mlServiceUrl := some "http://ml.internal", mlApiKey := some "key" }

/-- A configuration with neither ML endpoint nor credential set. -/
def cfgNoML : ServiceConfig :=
  { mlServiceUrl := none, mlApiKey := none }

/-- A second lead with only identity fields set. -/
def emptyLead2 : LeadRecord :=
  { emptyLead with leadId := "lead-2" }

/-- A third lead with only identity fields set. -/
def emptyLead3 : LeadRecord :=
  { emptyLead with leadId := "lead-3" }

/-- Evaluation rule for `jsRound` from two rational bounds. -/
theorem jsRoundEq (q : ℚ) (n : ℤ) (h1 : (n : ℚ) ≤ q + 1 / 2)
    (h2 : q + 1 / 2 < n + 1) : jsRound q = n := by
  rw [jsRound]
  exact Int.floor_eq_iff.mpr ⟨h1, h2⟩

/-- Clamping never goes below 0. -/
theorem clampQ_nonneg (q : ℚ) : 0 ≤ clampQ q :=
  le_max_left _ _

/-- Clamping never exceeds 100. -/
theorem clampQ_le_100 (q : ℚ) : clampQ q ≤ 100 :=
  max_le (by norm_num) (min_le_left _ _)

/-- Clamping is the identity on values already in range. -/
theorem clampQ_of_mem {q : ℚ} (h1 : 0 ≤ q) (h2 : q ≤ 100) : clampQ q = q := by
  rw [clampQ, min_eq_right h2, max_eq_right h1]

/-- Rounding a clamped value stays at or above 0. -/
theorem jsRound_clampQ_nonneg (q : ℚ) : 0 ≤ jsRound (clampQ q) := by
  rw [jsRound, Int.le_floor]
  have h := clampQ_nonneg q
  push_cast
  linarith

/-- Rounding a clamped value stays at or below 100. -/
theorem jsRound_clampQ_le_100 (q : ℚ) : jsRound (clampQ q) ≤ 100 := by
  have h := clampQ_le_100 q
  have h1 : jsRound (clampQ q) ≤ jsRound (100 : ℚ) := by
    rw [jsRound, jsRound]
    exact Int.floor_le_floor (by linarith)
  have h2 : jsRound (100 : ℚ) = 100 := jsRoundEq _ 100 (by norm_num) (by norm_num)
  omega

/-- The weighted total of the rule-based scorer, as accumulated in
`calculateScoreWithRules`. -/
def ruleTotal (lead : LeadRecord) (now : Int) : ℚ :=
  (scoreDemographics lead : ℚ) * demographicWeight
    + (scoreBehavior lead : ℚ) * behavioralWeight
    + (scoreFirmographics lead : ℚ) * firmographicWeight
    + (scoreEngagement lead now : ℚ) * engagementWeight

/-- The value of the rule-based result is the rounded, clamped weighted
total. -/
theorem rules_value_def (lead : LeadRecord) (now : Int) :
    (calculateScoreWithRules lead now).value = jsRound (clampQ (ruleTotal lead now)) :=
  rfl

/-- The method of the rule-based result. -/
theorem rules_method_def (lead : LeadRecord) (now : Int) :
    (calculateScoreWithRules lead now).method = some "rule-based" :=
  rfl

/-- The weights of the four factors emitted by the rule-based scorer. -/
theorem rules_factor_weights (lead : LeadRecord) (now : Int) :
    (calculateScoreWithRules lead now).factors.map ScoreFactor.weight =
      [demographicWeight, behavioralWeight, firmographicWeight, engagementWeight] :=
  rfl

/-- The rule-based value always lies in [0, 100]. -/
theorem rules_value_bounds (lead : LeadRecord) (now : Int) :
    0 ≤ (calculateScoreWithRules lead now).value ∧
      (calculateScoreWithRules lead now).value ≤ 100 := by
  rw [rules_value_def]
  exact ⟨jsRound_clampQ_nonneg _, jsRound_clampQ_le_100 _⟩

/-- Rewriting the weighted total through concrete sub-scores. -/
theorem ruleTotal_eq (lead : LeadRecord) (now : Int) (d b f e : Int)
    (hd : scoreDemographics lead = d) (hb : scoreBehavior lead = b)
    (hf : scoreFirmographics lead = f) (he : scoreEngagement lead now = e) :
    ruleTotal lead now =
      (d : ℚ) * demographicWeight + (b : ℚ) * behavioralWeight
        + (f : ℚ) * firmographicWeight + (e : ℚ) * engagementWeight := by
  rw [ruleTotal, hd, hb, hf, he]

/-- When the ML endpoint is unset, the configuration guard is off. -/
theorem mlConfigured_of_url_none {cfg : ServiceConfig}
    (h : cfg.mlServiceUrl = none) : mlConfigured cfg = false := by
  simp [mlConfigured, isTruthyStr, h]

/-- C1 (counterexample): with the ML path configured and a response
carrying score 150, `calculateLeadScore` returns value 150 — the
ML-supplied score is rounded but not clamped into [0, 100]. -/
theorem calculateLeadScore_ml_unclamped_cex :
    100 < (calculateLeadScore cfgML emptyLead
      (Except.ok ⟨some 150, none, none, none⟩) 0).value := by
  have h1 : (calculateLeadScore cfgML emptyLead
      (Except.ok ⟨some 150, none, none, none⟩) 0).value = jsRound 150 := rfl
  have h2 : jsRound (150 : ℚ) = 150 := jsRoundEq _ 150 (by norm_num) (by norm_num)
  omega

/-- C1 (amended): `calculateLeadScore` is total (never throws) and its
value is an integer in [0, 100] on every path except when the ML
response itself supplies the score, in which case the value is that
score rounded to the nearest integer without clamping. -/
theorem calculateLeadScore_value_cases (cfg : ServiceConfig)
    (lead : LeadRecord) (resp : Except Unit MLResponse) (now : Int) :
    (0 ≤ (calculateLeadScore cfg lead resp now).value ∧
      (calculateLeadScore cfg lead resp now).value ≤ 100)
    ∨ (∃ s, mlSuppliedScore cfg resp = some s ∧
        (calculateLeadScore cfg lead resp now).value = jsRound s) := by
  by_cases h : mlConfigured cfg = true
  · cases resp with
    | error e =>
      refine Or.inl ?_
      simp only [calculateLeadScore, calculateScoreWithML, h, if_true]
      exact rules_value_bounds lead now
    | ok d =>
      cases hs : d.score with
      | none =>
        refine Or.inl ?_
        simp only [calculateLeadScore, calculateScoreWithML, h, if_true, hs]
        exact rules_value_bounds lead now
      | some s =>
        refine Or.inr ⟨s, ?_, ?_⟩
        · simp [mlSuppliedScore, h, hs]
        · simp only [calculateLeadScore, calculateScoreWithML, h, if_true, hs]
  · refine Or.inl ?_
    simp only [calculateLeadScore, h, if_false]
    exact rules_value_bounds lead now

/-- C2 (code bug): with the ML endpoint configured and a failing batch
call, `batchCalculateScores` rethrows the error to the caller instead
of looping the rule-based scorer over the records, contradicting its
own fallback log message. -/
theorem batchCalculateScores_ml_failure_throws :
    batchCalculateScores cfgML [emptyLead, emptyLead2, emptyLead3]
      (Except.error ()) 0 = Except.error () :=
  rfl

/-- C3: with `mlServiceUrl` unset, `calculateLeadScore` returns exactly
the rule-based result, whose method is `"rule-based"`. -/
theorem calculateLeadScore_fallback (cfg : ServiceConfig) (lead : LeadRecord)
    (resp : Except Unit MLResponse) (now : Int) (h : cfg.mlServiceUrl = none) :
    calculateLeadScore cfg lead resp now = calculateScoreWithRules lead now ∧
      (calculateLeadScore cfg lead resp now).method = some "rule-based" := by
  have h1 : calculateLeadScore cfg lead resp now = calculateScoreWithRules lead now := by
    unfold calculateLeadScore
    rw [mlConfigured_of_url_none h]
    simp
  exact ⟨h1, by rw [h1, rules_method_def]⟩

/-- C3 (witness): the fallback equality at a concrete unset
configuration and a concrete lead. -/
theorem calculateLeadScore_fallback_witness :
    cfgNoML.mlServiceUrl = none ∧
      (calculateLeadScore cfgNoML emptyLead (Except.error ()) 0 =
          calculateScoreWithRules emptyLead 0 ∧
        (calculateLeadScore cfgNoML emptyLead (Except.error ()) 0).method =
          some "rule-based") :=
  ⟨rfl, calculateLeadScore_fallback cfgNoML emptyLead (Except.error ()) 0 rfl⟩

/-- C4: the weights of the factors returned by the rule-based scorer sum
to 1 within one thousandth (indeed exactly: 0.25 + 0.30 + 0.25 + 0.20). -/
theorem rules_factor_weights_sum (lead : LeadRecord) (now : Int) :
    |(((calculateScoreWithRules lead now).factors.map ScoreFactor.weight).sum : ℚ) - 1|
      ≤ 1 / 1000 := by
  rw [rules_factor_weights]
  norm_num [demographicWeight, behavioralWeight, firmographicWeight, engagementWeight]

/-- C5 (counterexample): on an ML success the returned result carries no
`method` field at all — in particular it is not `"ml"`. -/
theorem scoreWithML_method_cex :
    (calculateScoreWithML emptyLead
      (Except.ok ⟨some 75, none, some "v1", some (9 / 10)⟩) 0).method ≠
      some "ml" := by
  decide

/-- C5 (amended): when the ML response carries a numeric score, the
result's value is that score rounded, its factors are the response's
factors (or empty), `model_version` and `confidence` are passed
through, and no `method` field is set. -/
theorem scoreWithML_success_shape (lead : LeadRecord) (d : MLResponse)
    (s : ℚ) (now : Int) (h : d.score = some s) :
    (calculateScoreWithML lead (Except.ok d) now).method = none ∧
      (calculateScoreWithML lead (Except.ok d) now).value = jsRound s ∧
      (calculateScoreWithML lead (Except.ok d) now).factors = d.factors.getD [] ∧
      (calculateScoreWithML lead (Except.ok d) now).model_version = d.model_version ∧
      (calculateScoreWithML lead (Except.ok d) now).confidence = d.confidence := by
  simp [calculateScoreWithML, h]

/-- C5 (witness): the success shape at a concrete response. -/
theorem scoreWithML_success_shape_witness :
    (⟨some 75, some [], some "v1", some (9 / 10)⟩ : MLResponse).score = some 75 ∧
      ((calculateScoreWithML emptyLead
          (Except.ok ⟨some 75, some [], some "v1", some (9 / 10)⟩) 0).method = none ∧
        (calculateScoreWithML emptyLead
          (Except.ok ⟨some 75, some [], some "v1", some (9 / 10)⟩) 0).value = jsRound 75 ∧
        (calculateScoreWithML emptyLead
          (Except.ok ⟨some 75, some [], some "v1", some (9 / 10)⟩) 0).factors =
            (some ([] : List ScoreFactor)).getD [] ∧
        (calculateScoreWithML emptyLead
          (Except.ok ⟨some 75, some [], some "v1", some (9 / 10)⟩) 0).model_version =
            some "v1" ∧
        (calculateScoreWithML emptyLead
          (Except.ok ⟨some 75, some [], some "v1", some (9 / 10)⟩) 0).confidence =
            some (9 / 10)) :=
  ⟨rfl, scoreWithML_success_shape emptyLead ⟨some 75, some [], some "v1", some (9 / 10)⟩ 75 0 rfl⟩

/-- C6 (counterexample): for the all-optional-fields-absent lead it is
not the case that all four sub-scores are 50 with final value 50 and
grade D — the behavioral sub-score is already not 50. -/
theorem emptyLead_scenario_cex :
    ¬(scoreDemographics emptyLead = 50 ∧ scoreBehavior emptyLead = 50 ∧
      scoreFirmographics emptyLead = 50 ∧ scoreEngagement emptyLead 0 = 50 ∧
      (calculateScoreWithRules emptyLead 0).value = 50 ∧
      getScoreGrade (calculateScoreWithRules emptyLead 0).value = "D") := by
  rintro ⟨h1, h2, hrest⟩
  exact absurd h2 (by decide)

/-- C6 (amended): for the all-optional-fields-absent lead the
demographic, firmographic and engagement sub-scores are 50 but the
behavioral sub-score is 45 (source default +5, timeline default −5,
budget default −5), so the final value is round(48.5) = 49 and the
grade is "F". -/
theorem emptyLead_scenario :
    scoreDemographics emptyLead = 50 ∧ scoreBehavior emptyLead = 45 ∧
      scoreFirmographics emptyLead = 50 ∧ scoreEngagement emptyLead 0 = 50 ∧
      (calculateScoreWithRules emptyLead 0).value = 49 ∧
      getScoreGrade (calculateScoreWithRules emptyLead 0).value = "F" := by
  have ht : ruleTotal emptyLead 0 = 97 / 2 := by
    rw [ruleTotal_eq emptyLead 0 50 45 50 50 (by decide) (by decide) (by decide) (by decide)]
    norm_num [demographicWeight, behavioralWeight, firmographicWeight, engagementWeight]
  have hv : (calculateScoreWithRules emptyLead 0).value = 49 := by
    rw [rules_value_def, ht, clampQ_of_mem (by norm_num) (by norm_num)]
    exact jsRoundEq _ 49 (by norm_num) (by norm_num)
  refine ⟨by decide, by decide, by decide, by decide, hv, ?_⟩
  rw [hv]
  decide

/-- C7 (counterexample): the title "VP Director" matches both the VP
tier and the director tier, yet its bonus is +15, not the +18 the
claimed CEO → VP → director check order would give. -/
theorem jobTitleBonus_order_cex :
    vpTier (lowerStr "VP Director") = true ∧
      dirTier (lowerStr "VP Director") = true ∧
      jobTitleBonus "VP Director" ≠ 18 ∧ jobTitleBonus "VP Director" = 15 := by
  decide

/-- C7 (amended): the job-title bonus is decided by case-insensitive
substring match with check order CEO tier (+20), then director tier
(+15), then VP tier (+18); a title matching both the VP tier and the
director tier (and not the CEO tier) therefore gets +15, and a lead
carrying only such a title scores 65 demographically. -/
theorem jobTitleBonus_order (t : String) (hne : (t == "") = false)
    (hceo : ceoTier (lowerStr t) = false) (hdir : dirTier (lowerStr t) = true)
    (hvp : vpTier (lowerStr t) = true) :
    jobTitleBonus t = 15 ∧
      scoreDemographics
        { leadId := "lead-t", jobTitle := some t, decisionMaker := false
          company := none, source := none, status := none, priority := none
          budget := none, timeline := none, interactions := none
          createdAt := none } = 65 := by
  have hb : jobTitleBonus t = 15 := by
    simp only [jobTitleBonus, hceo, hdir]
    simp
  refine ⟨hb, ?_⟩
  simp [scoreDemographics, hne, hb, clampInt]

/-- C7 (witness): the amended order behaviour at the title
"vp director". -/
theorem jobTitleBonus_order_witness :
    (("vp director" == "") = false) ∧
      ceoTier (lowerStr "vp director") = false ∧
      dirTier (lowerStr "vp director") = true ∧
      vpTier (lowerStr "vp director") = true ∧
      (jobTitleBonus "vp director" = 15 ∧
        scoreDemographics
          { leadId := "lead-t", jobTitle := some "vp director"
            decisionMaker := false, company := none, source := none
            status := none, priority := none, budget := none, timeline := none
            interactions := none, createdAt := none } = 65) :=
  ⟨by decide, by decide, by decide, by decide,
    jobTitleBonus_order "vp director" (by decide) (by decide) (by decide) (by decide)⟩

/-- C8 (counterexample): a lead whose interactions field is absent does
not receive the initiate-first-contact recommendation. -/
theorem recEngagement_absent_cex :
    recEngagement ∉
      generateRecommendations emptyLead (calculateScoreWithRules emptyLead 0) := by
  have hv : (calculateScoreWithRules emptyLead 0).value = 49 := by
    have ht : ruleTotal emptyLead 0 = 97 / 2 := by
      rw [ruleTotal_eq emptyLead 0 50 45 50 50 (by decide) (by decide) (by decide) (by decide)]
      norm_num [demographicWeight, behavioralWeight, firmographicWeight, engagementWeight]
    rw [rules_value_def, ht, clampQ_of_mem (by norm_num) (by norm_num)]
    exact jsRoundEq _ 49 (by norm_num) (by norm_num)
  simp only [generateRecommendations, hv]
  decide

/-- C8 (amended): the initiate-first-contact recommendation is included
exactly when the interactions field is present and empty; an absent
field does not trigger it (the guard is
`lead.interactions?.length === 0`). -/
theorem recEngagement_mem_iff (lead : LeadRecord) (score : ScoreResult) :
    recEngagement ∈ generateRecommendations lead score ↔
      lead.interactions = some [] := by
  unfold generateRecommendations
  by_cases h : lead.interactions = some []
  · simp [h]
  · simp only [beq_iff_eq, h, if_false, List.append_nil]
    simp only [List.mem_append, h, iff_false]
    intro hmem
    rcases hmem with (hmem | hmem) | hmem
    · rcases hmem with hmem | hmem
      · revert hmem
        split <;> decide
      · revert hmem
        split <;> decide
    · revert hmem
      split <;> decide
    · revert hmem
      split <;> decide

/-- C9: the rule-based scorer is deterministic — it is a pure function
of the lead record and the evaluation time, so two calls on the
unmodified record at the same time agree on value, factors and method. -/
theorem rules_deterministic (lead : LeadRecord) (now : Int) :
    calculateScoreWithRules lead now = calculateScoreWithRules lead now ∧
      (calculateScoreWithRules lead now).value = (calculateScoreWithRules lead now).value ∧
      (calculateScoreWithRules lead now).factors = (calculateScoreWithRules lead now).factors ∧
      (calculateScoreWithRules lead now).method = (calculateScoreWithRules lead now).method :=
  ⟨rfl, rfl, rfl, rfl⟩

/-- C10: with the ML endpoint unset, batch scoring returns one entry per
lead, in input order, each being the rule-based result of that lead
tagged with the lead's id. -/
theorem batchCalculateScores_rule_based (cfg : ServiceConfig)
    (leads : List LeadRecord) (resp : Except Unit (List BatchEntry))
    (now : Int) (h : cfg.mlServiceUrl = none) :
    batchCalculateScores cfg leads resp now =
        Except.ok (leads.map fun l => ⟨l.leadId, calculateScoreWithRules l now⟩) ∧
      (leads.map fun l => (⟨l.leadId, calculateScoreWithRules l now⟩ : BatchEntry)).length =
        leads.length := by
  constructor
  · unfold batchCalculateScores
    rw [mlConfigured_of_url_none h]
    simp
  · exact List.length_map _ _

/-- C10 (witness): batch fallback at a concrete two-lead list with the
endpoint unset. -/
theorem batchCalculateScores_rule_based_witness :
    cfgNoML.mlServiceUrl = none ∧
      (batchCalculateScores cfgNoML [emptyLead, emptyLead2] (Except.error ()) 0 =
          Except.ok ([emptyLead, emptyLead2].map fun l =>
            ⟨l.leadId, calculateScoreWithRules l 0⟩) ∧
        ([emptyLead, emptyLead2].map fun l =>
          (⟨l.leadId, calculateScoreWithRules l 0⟩ : BatchEntry)).length =
            [emptyLead, emptyLead2].length) :=
  ⟨rfl, batchCalculateScores_rule_based cfgNoML [emptyLead, emptyLead2]
    (Except.error ()) 0 rfl⟩

end CRM
